import Mathlib

/-!
Shallow embedding of the frame-conversion sketch functions from
`docs/design/coordinates_design.ipynb` of the cngi_prototype repository:
`_reference_time`, `_reference_location`, `_target_location`,
`_change_frame` and `topo_to_lsrk`.

Python `try/except` blocks are embedded as `Except PyErr` computations whose
handler is applied to any error of the body; Python local variables that are
only assigned on some paths are embedded as `Option` bindings, so that reading
an unassigned variable raises a `NameError` exactly as in CPython.  Module
level names that the sketch reads without defining (`global_xds`, `img_xds`,
`cngi`, `something`) are looked up in an explicit `ModuleEnv`; in the module
environment produced by executing the notebook none of them is bound.
External astropy behaviour (which inputs `EarthLocation.of_site`, `Time`,
`Angle`, `EarthLocation` accept) is a parameter `Lib`, so theorems quantify
over every possible library behaviour.
-/

set_option linter.unusedVariables false

namespace CngiCoords

/-- Python exception values distinguished by kind and offending name. -/
inductive PyErr where
  | keyError (k : String)
  | attrError (a : String)
  | nameError (n : String)
  | indexError
  | typeError (m : String)
  | valueError (m : String)
  | unitsError
  deriving DecidableEq, Repr

/-- A reference time: either a value read from dataset metadata or the
wall-clock value produced by `datetime.datetime.now()`. -/
inductive TimeV where
  | data (v : ℚ)
  | now (v : ℚ)
  deriving DecidableEq, Repr

/-- An astropy quantity: the only units the sketch ever attaches. -/
inductive Qty where
  | kmps (v : ℚ)
  | hz (v : ℚ)
  | pc (v : ℚ)
  deriving DecidableEq, Repr

/-- An `EarthLocation`: built by `of_site` from a name or from a scalar
position (the antenna-position mean). -/
inductive EarthLoc where
  | ofSite (s : String)
  | ofScalar (x : ℚ)
  deriving DecidableEq, Repr

/-- Result of `.get_itrs(obstime=Time(reference_time))`: an Earth location
tagged with its observation time. -/
inductive ObserverLoc where
  | itrs (loc : EarthLoc) (obstime : TimeV)
  deriving DecidableEq, Repr

/-- The `SkyCoord` the sketch builds: direction string, frame label,
radial velocity and distance. -/
structure Target where
  radec : String
  frame : String
  radial_velocity : Qty
  distance : Qty
  deriving DecidableEq, Repr

/-- A dataset partition (`xds`): each metadata field the sketch consults,
`none` when the field is absent from the partition. -/
structure XDS where
  ASDM_startValidTime : Option (List ℚ) := none
  OBS_TIME_RANGE : Option (List ℚ) := none
  OBS_TELESCOPE_NAME : Option String := none
  ANT_POSITION : Option (List ℚ) := none
  SRC_DIRECTION : Option ℚ := none
  SRC_PROPER_MOTION : Option ℚ := none
  deriving DecidableEq, Repr

/-- The image dataset read by `_change_frame` through the module-level name
`img_xds`: only its `attrs` entry `rest_frequency` is consulted. -/
structure ImgXDS where
  rest_frequency : Option String := none
  deriving DecidableEq, Repr

/-- The module-level environment the sketch functions execute in: the
wall-clock value `datetime.datetime.now()` returns, and the module names the
sketch reads without ever defining them. In the notebook none of
`global_xds`, `img_xds`, `cngi` is bound. -/
structure ModuleEnv where
  now : ℚ
  global_xds : Option XDS := none
  img_xds : Option ImgXDS := none
  cngi_bound : Bool := false
  read_vis : String → String → Except PyErr XDS := fun _ _ => .error (.nameError "cngi")

/-- External library behaviour: which inputs each astropy constructor
accepts. A `false` answer means the call raises. -/
structure Lib where
  of_site_ok : String → Bool
  earthLocation_ok : ℚ → Bool
  time_ok : TimeV → Bool
  angle_ok : ℚ → Bool

/-- Dictionary lookup `xds[k]`: raises `KeyError` when the field is absent. -/
def keyLookup (o : Option α) (k : String) : Except PyErr α :=
  match o with
  | some a => .ok a
  | none => .error (.keyError k)

/-- Attribute access `xds.a`: raises `AttributeError` when absent. -/
def attrLookup (o : Option α) (a : String) : Except PyErr α :=
  match o with
  | some v => .ok v
  | none => .error (.attrError a)

/-- Module-name resolution: raises `NameError` when the name is unbound. -/
def nameLookup (o : Option α) (n : String) : Except PyErr α :=
  match o with
  | some v => .ok v
  | none => .error (.nameError n)

/-- Indexing `a[0]`: raises `IndexError` on an empty array. -/
def indexZero (l : List ℚ) : Except PyErr ℚ :=
  match l.head? with
  | some v => .ok v
  | none => .error .indexError

/-- `ndarray.mean()` of the antenna positions. -/
def listMean (l : List ℚ) : ℚ :=
  l.sum / (l.length : ℚ)

/-- A Python `try/except` with a bare `except`: the handler replaces any
error of the body, and an error raised by the handler itself propagates. -/
def pyTry (body : Except PyErr α) (handler : Except PyErr α) : Except PyErr α :=
  match body with
  | .ok a => .ok a
  | .error _ => handler

/-- Is a quantity a velocity? `SkyCoord` rejects a `radial_velocity`
argument that does not carry velocity units. -/
def isVelocity : Qty → Bool
  | .kmps _ => true
  | .hz _ => false
  | .pc _ => false

/-- Embedding of `_reference_time(input_xds)` (notebook cell 5).
The `try` body reads `input_xds['ASDM_startValidTime'][0]` into
`reference_time` and immediately overwrites it with
`input_xds.OBS_TIME_RANGE.values[0]`; the bare `except` substitutes
`datetime.datetime.now()`. The function itself cannot raise. -/
def _reference_time (env : ModuleEnv) (input_xds : XDS) : TimeV :=
  let tryBody : Except PyErr TimeV := do
    let asdm ← keyLookup input_xds.ASDM_startValidTime "ASDM_startValidTime"
    let _ ← indexZero asdm
    let otr ← attrLookup input_xds.OBS_TIME_RANGE "OBS_TIME_RANGE"
    let v ← indexZero otr
    pure (TimeV.data v)
  match tryBody with
  | .ok t => t
  | .error _ => TimeV.now env.now

/-- Embedding of `_reference_location(input_xds, reference_time)`
(notebook cell 7). The `try` body is
`EarthLocation.of_site(input_xds['OBS_TELESCOPE_NAME']).get_itrs(obstime=Time(reference_time))`;
the bare `except` recomputes a location from
`EarthLocation(input_xds['ANT_POSITION'].mean())`. A failure inside the
handler is not caught and propagates to the caller. -/
def _reference_location (lib : Lib) (input_xds : XDS) (reference_time : TimeV) :
    Except PyErr ObserverLoc :=
  pyTry
    (do
      let name ← keyLookup input_xds.OBS_TELESCOPE_NAME "OBS_TELESCOPE_NAME"
      let loc ←
        if lib.of_site_ok name then pure (EarthLoc.ofSite name)
        else Except.error (.valueError "of_site")
      let t ←
        if lib.time_ok reference_time then pure reference_time
        else Except.error (.valueError "Time")
      pure (ObserverLoc.itrs loc t))
    (do
      let ants ← keyLookup input_xds.ANT_POSITION "ANT_POSITION"
      let loc ←
        if lib.earthLocation_ok (listMean ants) then pure (EarthLoc.ofScalar (listMean ants))
        else Except.error (.valueError "EarthLocation")
      let t ←
        if lib.time_ok reference_time then pure reference_time
        else Except.error (.valueError "Time")
      pure (ObserverLoc.itrs loc t))

/-- Embedding of `_target_location(input_xds)` (notebook cell 9).
Four independent `try/except` blocks, then
`SkyCoord(radec, frame=target_frame, radial_velocity=recession, distance=distance)`.
The first `try` body assigns `radec_string`, so the local `radec` is bound
only when the `except` path ran; reading it in the `SkyCoord` call raises
`NameError` otherwise. The second `try` body is the constant assignment
`target_frame = 'icrs'` and cannot fail. The third reads
`global_xds.SRC_PROPER_MOTION` through the module-level name `global_xds`.
The fourth reads the module-level name `something`, which is never bound. -/
def _target_location (env : ModuleEnv) (lib : Lib) (input_xds : XDS) :
    Except PyErr Target :=
  let angleTry : Except PyErr ℚ := do
    let d ← attrLookup input_xds.SRC_DIRECTION "SRC_DIRECTION"
    if lib.angle_ok d then pure d else Except.error (.valueError "Angle")
  let radec : Option String :=
    match angleTry with
    | .ok _ => none
    | .error _ => some "04h21m59.43s +19d32m06.4"
  let target_frame : String :=
    match pyTry (Except.ok "icrs") (Except.ok "FK5") with
    | .ok s => s
    | .error _ => "FK5"
  let recessionTry : Except PyErr Qty := do
    let g ← nameLookup env.global_xds "global_xds"
    let pm ← attrLookup g.SRC_PROPER_MOTION "SRC_PROPER_MOTION"
    pure (Qty.hz pm)
  let recession : Qty :=
    match recessionTry with
    | .ok q => q
    | .error _ => Qty.kmps 23.9
  let distanceTry : Except PyErr Qty := nameLookup (none : Option Qty) "something"
  let distance : Qty :=
    match distanceTry with
    | .ok q => q
    | .error _ => Qty.pc 144.321
  match radec with
  | none => .error (.nameError "radec")
  | some r =>
    if isVelocity recession then
      .ok { radec := r, frame := target_frame, radial_velocity := recession,
            distance := distance }
    else .error .unitsError

/-- Embedding of `_change_frame(input_array, place, source)` (notebook
cell 13). The first statement evaluates
`u(img_xds.attrs['rest_frequency'].split('')[:-1])`: the module-level name
`img_xds` is looked up first (`NameError` when unbound), then
`attrs['rest_frequency']` (`KeyError` when absent), then `.split('')`,
which in Python unconditionally raises `ValueError: empty separator`.
No statement of the body can complete, so the subsequent
`input_array.with_observer_stationary_relative_to('lsrk')` and the final
`output_array(axis=-1, keepdims=True)` call are unreachable. -/
def _change_frame (env : ModuleEnv) (input_array : List ℚ) (place : ObserverLoc)
    (source : Target) : Except PyErr (List ℚ) :=
  match env.img_xds with
  | none => .error (.nameError "img_xds")
  | some img =>
    match img.rest_frequency with
    | none => .error (.keyError "rest_frequency")
    | some _ => .error (.valueError "empty separator")

/-- Serial application of `_change_frame` over the rows of a dataset array:
one row per element along the non-transformed `(time, baseline, pol)` axes,
each row the channel vector the operator acts on. -/
def applySerial (env : ModuleEnv) (place : ObserverLoc) (source : Target)
    (rows : List (List ℚ)) : Except PyErr (List (List ℚ)) :=
  rows.mapM (fun r => _change_frame env r place source)

/-- Chunked application of `_change_frame`: the rows are partitioned into
chunks along the non-transformed axes, the operator is applied to each chunk
independently and the per-chunk results are concatenated. -/
def applyChunked (env : ModuleEnv) (place : ObserverLoc) (source : Target)
    (chunks : List (List (List ℚ))) : Except PyErr (List (List ℚ)) :=
  (chunks.mapM (applySerial env place source)).map List.flatten

/-- Embedding of `topo_to_lsrk(xds, ddi, reference_time, observer_location,
target_location)` (notebook cell 15). The body resolves the module-level
name `cngi` for `cngi.dio.read_vis` (only `read_vis` was imported, so the
name is unbound in the notebook), reads the selected and the global
partitions, resolves `time` from the global partition (and never uses it),
resolves `place` from the global partition and the caller-supplied
`reference_time` parameter, and then evaluates
`source = _target_location(global_xds, ddi)`: `_target_location` takes
exactly one positional argument, so this call raises `TypeError` before the
`xarray.apply_ufunc` statement (which itself reads the unbound name
`change_frame`) can run. -/
def topo_to_lsrk (env : ModuleEnv) (lib : Lib) (xds : String) (ddi : String)
    (reference_time : TimeV) (observer_location : ObserverLoc)
    (target_location : Target) : Except PyErr XDS := do
  let cngi ← nameLookup (if env.cngi_bound then some () else none) "cngi"
  let vis_xds ← env.read_vis xds ddi
  let global_xds ← env.read_vis xds "global"
  let time := _reference_time env global_xds
  let place ← _reference_location lib global_xds reference_time
  Except.error (.typeError "_target_location() takes 1 positional argument but 2 were given")

/-- The module environment left by executing the notebook: `global_xds`,
`img_xds` and `cngi` are unbound, `read_vis` raises because `cngi` is
unbound. -/
def notebookEnv (now : ℚ) : ModuleEnv :=
  { now := now }

/-- A library behaviour accepting every input. -/
def libAll : Lib :=
  { of_site_ok := fun _ => true
    earthLocation_ok := fun _ => true
    time_ok := fun _ => true
    angle_ok := fun _ => true }

/-- A dataset partition with every documented metadata field present and
well-formed. -/
def fullXds : XDS :=
  { ASDM_startValidTime := some [100]
    OBS_TIME_RANGE := some [200]
    OBS_TELESCOPE_NAME := some "ALMA"
    ANT_POSITION := some [1, 3]
    SRC_DIRECTION := some 2
    SRC_PROPER_MOTION := some 5 }

/-- The empty dataset partition: no metadata field present. -/
def emptyXds : XDS := {}

/-- The target the sketch actually constructs on its only successful path:
default direction string, frame `icrs`, default recession and distance. -/
def defaultTarget : Target :=
  { radec := "04h21m59.43s +19d32m06.4"
    frame := "icrs"
    radial_velocity := Qty.kmps 23.9
    distance := Qty.pc 144.321 }

/-- A partition carrying `ASDM_startValidTime` but no `OBS_TIME_RANGE`. -/
def asdmOnlyXds : XDS :=
  { ASDM_startValidTime := some [100] }

/-- A concrete observer location used to exercise `_change_frame`. -/
def place0 : ObserverLoc :=
  ObserverLoc.itrs (EarthLoc.ofSite "ALMA") (TimeV.data 0)

/-- Case analysis of `_reference_time`: the metadata time is returned exactly
when both the `ASDM_startValidTime` read and the `OBS_TIME_RANGE` read
succeed, and the wall-clock default otherwise. -/
theorem reference_time_cases (env : ModuleEnv) (xds : XDS) :
    _reference_time env xds =
      match xds.ASDM_startValidTime, xds.OBS_TIME_RANGE with
      | some (_ :: _), some (v :: _) => TimeV.data v
      | _, _ => TimeV.now env.now := by
  obtain ⟨asdm, otr, tel, ant, dir, pm⟩ := xds
  rcases asdm with _ | (_ | ⟨a, as⟩) <;> rcases otr with _ | (_ | ⟨v, vs⟩) <;> rfl

/-- C1 counterexample: the claim that every metadata resolver returns a value
and never raises is false at a concrete input. On the empty partition,
`_reference_location` fails its site lookup, and the antenna-position
fallback branch itself raises a `KeyError` that propagates to the caller,
whatever the library behaviour. -/
theorem reference_location_fallback_raises_cex :
    _reference_location libAll emptyXds (TimeV.data 0) =
      Except.error (PyErr.keyError "ANT_POSITION") := rfl

/-- C1 amended: the silent-default policy holds only for `_reference_time`,
which on every input returns either the metadata time or the wall-clock
default and never raises; `_reference_location` has inputs on which it
raises (its fallback branch is unprotected), and `_target_location` has
inputs on which it raises (it reads the unassigned local `radec`). -/
theorem resolver_default_policy_amended :
    (∀ (env : ModuleEnv) (xds : XDS),
        _reference_time env xds = TimeV.now env.now ∨
        ∃ l v, xds.OBS_TIME_RANGE = some l ∧ l.head? = some v ∧
          _reference_time env xds = TimeV.data v) ∧
    (∃ (lib : Lib) (xds : XDS) (t : TimeV) (e : PyErr),
        _reference_location lib xds t = Except.error e) ∧
    (∃ (env : ModuleEnv) (lib : Lib) (xds : XDS) (e : PyErr),
        _target_location env lib xds = Except.error e) := by
  refine ⟨?_, ?_, ?_⟩
  · intro env xds
    rw [reference_time_cases]
    obtain ⟨asdm, otr, tel, ant, dir, pm⟩ := xds
    rcases asdm with _ | (_ | ⟨a, as⟩) <;> rcases otr with _ | (_ | ⟨v, vs⟩) <;>
      first
        | exact Or.inl rfl
        | exact Or.inr ⟨_, _, rfl, rfl, rfl⟩
  · exact ⟨libAll, emptyXds, TimeV.data 0, PyErr.keyError "ANT_POSITION", rfl⟩
  · exact ⟨notebookEnv 0, libAll, fullXds, PyErr.nameError "radec", rfl⟩

/-- C2: with every documented metadata field present and well-formed (and the
library accepting every input), `_target_location` still does not return a
metadata-derived value: the direction lookup succeeds, so the `SkyCoord`
call reads the unassigned local `radec` and raises `NameError`; with no
metadata at all the function instead returns a target built entirely from
fallback defaults. -/
theorem target_location_full_metadata_raises :
    _target_location (notebookEnv 0) libAll fullXds =
      Except.error (PyErr.nameError "radec") ∧
    _target_location (notebookEnv 0) libAll emptyXds = Except.ok defaultTarget :=
  ⟨rfl, rfl⟩

/-- C6: on a partition lacking both observation-time fields,
`_reference_time` returns the wall-clock default; the embedding is a total
function, so no exception escapes. -/
theorem reference_time_defaults_when_time_missing (env : ModuleEnv) (xds : XDS)
    (h1 : xds.ASDM_startValidTime = none) (h2 : xds.OBS_TIME_RANGE = none) :
    _reference_time env xds = TimeV.now env.now := by
  rw [reference_time_cases, h1, h2]

/-- C6 witness: the theorem applied to the empty partition. -/
theorem reference_time_defaults_witness :
    _reference_time (notebookEnv 7) emptyXds = TimeV.now 7 :=
  reference_time_defaults_when_time_missing (notebookEnv 7) emptyXds rfl rfl

/-- C10: the value read from `ASDM_startValidTime` is never what
`_reference_time` returns: the result is the head of `OBS_TIME_RANGE` when
both reads succeed and the wall-clock default otherwise; in particular a
partition that has `ASDM_startValidTime` but lacks `OBS_TIME_RANGE` gets
the wall-clock default. -/
theorem reference_time_ignores_asdm (env : ModuleEnv) (xds : XDS) :
    ((∃ l v, xds.OBS_TIME_RANGE = some l ∧ l.head? = some v ∧
        _reference_time env xds = TimeV.data v) ∨
      _reference_time env xds = TimeV.now env.now) ∧
    (∀ a, xds.ASDM_startValidTime = some a → xds.OBS_TIME_RANGE = none →
      _reference_time env xds = TimeV.now env.now) := by
  constructor
  · rw [reference_time_cases]
    obtain ⟨asdm, otr, tel, ant, dir, pm⟩ := xds
    rcases asdm with _ | (_ | ⟨a, as⟩) <;> rcases otr with _ | (_ | ⟨v, vs⟩) <;>
      first
        | exact Or.inr rfl
        | exact Or.inl ⟨_, _, rfl, rfl, rfl⟩
  · intro a h1 h2
    rw [reference_time_cases, h1, h2]
    rcases a with _ | ⟨x, xs⟩ <;> rfl

/-- C10 witness: the theorem applied to a partition that carries
`ASDM_startValidTime = [100]` and no `OBS_TIME_RANGE`. -/
theorem reference_time_ignores_asdm_witness :
    _reference_time (notebookEnv 3) asdmOnlyXds = TimeV.now 3 :=
  (reference_time_ignores_asdm (notebookEnv 3) asdmOnlyXds).2 [100] rfl rfl

/-- C3: `topo_to_lsrk` never returns a dataset: whatever the module
environment, library behaviour and arguments, every call ends in an error —
at the latest at `_target_location(global_xds, ddi)`, a two-argument call of
a one-argument function. -/
theorem topo_to_lsrk_never_returns (env : ModuleEnv) (lib : Lib) (xds : String)
    (ddi : String) (reference_time : TimeV) (observer_location : ObserverLoc)
    (target_location : Target) :
    ∃ e, topo_to_lsrk env lib xds ddi reference_time observer_location
      target_location = Except.error e := by
  unfold topo_to_lsrk
  simp only [bind, Except.bind]
  repeat' split
  all_goals exact ⟨_, rfl⟩

/-- C4: `_change_frame` never returns an array: whatever the module
environment and arguments, the first statement of its body raises
(`NameError` when `img_xds` is unbound, `KeyError` when its attrs lack
`rest_frequency`, and otherwise the unconditional `ValueError` of
`.split('')`). -/
theorem change_frame_never_returns (env : ModuleEnv) (input_array : List ℚ)
    (place : ObserverLoc) (source : Target) :
    ∃ e, _change_frame env input_array place source = Except.error e := by
  unfold _change_frame
  split
  · exact ⟨_, rfl⟩
  · split
    · exact ⟨_, rfl⟩
    · exact ⟨_, rfl⟩

/-- C5: at a concrete two-row array in the notebook module environment, the
chunked application of `_change_frame` and the unchunked serial application
both raise `NameError` on the unbound `img_xds`; no result arrays are
produced, so there is nothing for the claimed concatenation equality to
relate. -/
theorem chunked_and_serial_both_raise :
    applySerial (notebookEnv 0) place0 defaultTarget [[1], [2]] =
      Except.error (PyErr.nameError "img_xds") ∧
    applyChunked (notebookEnv 0) place0 defaultTarget [[[1]], [[2]]] =
      Except.error (PyErr.nameError "img_xds") :=
  ⟨rfl, rfl⟩

/-- C8 counterexample: `_change_frame` is not a function of its arguments
alone: two calls with identical (input values, observer, target) arguments
but different module environments yield different outcomes, because the body
reads the module-level name `img_xds`. -/
theorem change_frame_reads_module_state_cex :
    _change_frame (notebookEnv 0) [1] place0 defaultTarget ≠
      _change_frame
        { now := 0, img_xds := some { rest_frequency := some "100Hz" } }
        [1] place0 defaultTarget := by
  intro h
  rw [show _change_frame (notebookEnv 0) [1] place0 defaultTarget =
        Except.error (PyErr.nameError "img_xds") from rfl,
      show _change_frame
          { now := 0, img_xds := some { rest_frequency := some "100Hz" } }
          [1] place0 defaultTarget =
        Except.error (PyErr.valueError "empty separator") from rfl] at h
  exact PyErr.noConfusion (Except.error.inj h)

/-- C8 amended: `_change_frame` is deterministic only relative to the module
environment: in the notebook environment, where `img_xds` is unbound, every
call raises `NameError` and returns no result, and there are module
environments under which equal arguments produce different outcomes, so the
operator is not a pure function of (input values, observer, target) alone. -/
theorem change_frame_env_dependent_amended :
    (∀ (now : ℚ) (input_array : List ℚ) (place : ObserverLoc) (source : Target),
        _change_frame (notebookEnv now) input_array place source =
          Except.error (PyErr.nameError "img_xds")) ∧
    (∃ (e1 e2 : ModuleEnv) (input_array : List ℚ) (place : ObserverLoc)
        (source : Target),
        _change_frame e1 input_array place source ≠
          _change_frame e2 input_array place source) := by
  constructor
  · intro now input_array place source
    rfl
  · refine ⟨notebookEnv 0,
      { now := 0, img_xds := some { rest_frequency := some "100Hz" } },
      [1], place0, defaultTarget, ?_⟩
    intro h
    exact PyErr.noConfusion (Except.error.inj h)

/-- C9: whenever `_target_location` returns a target, that target carries
the frame label `icrs`: the `try` body guarding the frame is the constant
assignment `target_frame = 'icrs'`, which cannot fail, so the `FK5`
fallback is dead code. -/
theorem target_location_frame_icrs (env : ModuleEnv) (lib : Lib) (xds : XDS)
    (t : Target) (h : _target_location env lib xds = Except.ok t) :
    t.frame = "icrs" := by
  unfold _target_location at h
  dsimp only [pyTry] at h
  split at h
  · exact Except.noConfusion h
  · split at h
    · injection h with h2
      rw [← h2]
    · exact Except.noConfusion h

/-- C9 witness: the theorem applied to the empty partition, on which
`_target_location` succeeds and returns the all-default target. -/
theorem target_location_frame_icrs_witness : defaultTarget.frame = "icrs" :=
  target_location_frame_icrs (notebookEnv 0) libAll emptyXds defaultTarget rfl

end CngiCoords
